import Mathlib

/-!
Shallow embedding of the todo-list application's core: the todo reducer
(`src/contexts` TodoProvider), the storage service (`storageService.ts`),
the biometric service (`biometricService.ts`), the authentication gate
(`useAuth.ts` authenticateAndExecute) and the operation facade
(`useTodos.ts` handlers).  Asynchronous collaborator calls are modelled as
environment fields of type `Except JsExn α`: `.ok v` is a promise that
resolves with `v`, `.error e` is a promise that rejects with exception `e`.
Timestamps (`Date.now()`) are explicit `Nat` parameters.
-/

/-- A thrown JavaScript value: either an `Error` instance carrying a
message, or some non-`Error` value. -/
inductive JsExn where
  | err (msg : String)
  | other
deriving Repr, DecidableEq

/-- `error instanceof Error ? error.message : 'Unknown authentication error'`
(the normalisation applied in `biometricService.authenticate`'s catch). -/
def exnMessage : JsExn → String
  | .err m => m
  | .other => "Unknown authentication error"

/-- JavaScript `x || default` over an optional string: `undefined` and the
empty string are falsy. -/
def jsOrElse (o : Option String) (d : String) : String :=
  match o with
  | some s => if s = "" then d else s
  | none => d

/-- A todo item, as in `types/todo.ts` (shape visible in the reducer and
its tests): `id`, `title`, `description?`, `completed`, `createdAt`,
`updatedAt`. -/
structure Todo where
  id : String
  title : String
  description : Option String
  completed : Bool
  createdAt : Nat
  updatedAt : Nat
deriving Repr, DecidableEq

/-- The reducer state `{ todos, loading, error }` of the TodoProvider. -/
structure TodoState where
  todos : List Todo
  loading : Bool
  error : Option String
deriving Repr, DecidableEq

/-- `CreateTodoInput`: `{ title, description? }`. -/
structure CreateTodoInput where
  title : String
  description : Option String
deriving Repr, DecidableEq

/-- `UpdateTodoInput`: partial fields merged onto a matching todo.  A
`some` field models a key present in the partial object, `none` a key
absent from it. -/
structure UpdateTodoInput where
  title : Option String
  description : Option String
  completed : Option Bool
deriving Repr, DecidableEq

/-- The JavaScript spread `{ ...todo, ...updates, updatedAt: now }`:
fields present in `updates` override, `updatedAt` is then set to now. -/
def applyUpdates (todo : Todo) (u : UpdateTodoInput) (now : Nat) : Todo :=
  { todo with
    title := u.title.getD todo.title
    description := match u.description with
      | some d => some d
      | none => todo.description
    completed := u.completed.getD todo.completed
    updatedAt := now }

/-- The `TodoAction` union dispatched to the reducer. -/
inductive TodoAction where
  | setTodos (payload : List Todo)
  | addTodo (payload : Todo)
  | updateTodo (id : String) (updates : UpdateTodoInput)
  | deleteTodo (id : String)
  | toggleTodo (id : String)
  | setLoading (b : Bool)
  | setError (e : Option String)
deriving Repr, DecidableEq

/-- `todoReducer` from the TodoProvider, verbatim: `now` stands for the
`Date.now()` read in the UPDATE_TODO and TOGGLE_TODO branches. -/
def todoReducer (now : Nat) (state : TodoState) (action : TodoAction) : TodoState :=
  match action with
  | .setTodos payload =>
      { state with todos := payload, loading := false, error := none }
  | .addTodo payload =>
      { state with todos := payload :: state.todos, error := none }
  | .updateTodo id updates =>
      { state with
        todos := state.todos.map fun todo =>
          if todo.id == id then applyUpdates todo updates now else todo
        error := none }
  | .deleteTodo id =>
      { state with
        todos := state.todos.filter fun todo => todo.id != id
        error := none }
  | .toggleTodo id =>
      { state with
        todos := state.todos.map fun todo =>
          if todo.id == id then
            { todo with completed := !todo.completed, updatedAt := now }
          else todo
        error := none }
  | .setLoading b => { state with loading := b }
  | .setError e => { state with error := e, loading := false }

/-- The `initialState` of the TodoProvider. -/
def initialTodoState : TodoState :=
  { todos := [], loading := true, error := none }

/-- Outcome of `AsyncStorage.getItem` for the todos key: the key is
absent (`null`), holds a string, or the read itself rejects. -/
inductive StorageRead where
  | missing
  | value (s : String)
  | readFailure (e : JsExn)
deriving Repr, DecidableEq

namespace StorageService

/-- `storageService.loadTodos`, with `JSON.parse` abstracted as the
`parse` argument (parsing is a platform facility, not repository code).
The body's try/catch turns a rejected read or a parse exception into a
resolved empty list, so the result is always `.ok`; the `Except` result
type records what the caller of the promise can observe. -/
def loadTodos (parse : String → Except JsExn (List Todo)) (read : StorageRead) :
    Except JsExn (List Todo) :=
  match read with
  | .missing => .ok []
  | .readFailure _e => .ok []
  | .value s =>
      match parse s with
      | .ok todos => .ok todos
      | .error _e => .ok []

end StorageService

namespace TodoProvider

/-- `loadTodos` of the TodoProvider (the restore-from-storage operation):
dispatch SET_LOADING true, await `storageService.loadTodos`, and dispatch
SET_TODOS with the result; the catch branch dispatches SET_ERROR with the
fixed message. -/
def loadTodos (parse : String → Except JsExn (List Todo)) (read : StorageRead)
    (now : Nat) (state : TodoState) : TodoState :=
  let s1 := todoReducer now state (.setLoading true)
  match StorageService.loadTodos parse read with
  | .ok todos => todoReducer now s1 (.setTodos todos)
  | .error _e => todoReducer now s1 (.setError (some "Failed to load todos"))

/-- The todo constructed by the provider's `addTodo`: fresh id `fid`
(`Date.now()-random` in the source), trimmed title, optionally trimmed
description, `completed := false`, both timestamps `now`. -/
def newTodo (fid : String) (now : Nat) (input : CreateTodoInput) : Todo :=
  { id := fid
    title := input.title.trim
    description := input.description.map String.trim
    completed := false
    createdAt := now
    updatedAt := now }

/-- `addTodo` of the TodoProvider: construct the todo and dispatch ADD_TODO. -/
def addTodo (fid : String) (now : Nat) (input : CreateTodoInput)
    (state : TodoState) : TodoState :=
  todoReducer now state (.addTodo (newTodo fid now input))

end TodoProvider

/-- `LocalAuthentication.AuthenticationType` values relevant to the app. -/
inductive AuthType where
  | fingerprint
  | facial
  | iris
deriving Repr, DecidableEq, BEq

/-- Result object of `LocalAuthentication.authenticateAsync`. -/
structure PlatformAuthResult where
  success : Bool
  error : Option String
deriving Repr, DecidableEq

/-- `AuthResult` from `types`: `{ success, error? }`. -/
structure AuthResult where
  success : Bool
  error : Option String
deriving Repr, DecidableEq

/-- Behaviour of the `expo-local-authentication` platform module during
one interaction: each field is the settled outcome of the corresponding
platform call (`.ok` resolves, `.error` rejects). -/
structure BiometricEnv where
  hasHardware : Except JsExn Bool
  isEnrolled : Except JsExn Bool
  supportedTypes : Except JsExn (List AuthType)
  authenticateAsync : Except JsExn PlatformAuthResult
deriving Repr

namespace BiometricService

/-- `biometricService.isBiometricAvailable`: hardware check, then
enrollment check, any rejection caught and turned into `false`. -/
def isBiometricAvailable (env : BiometricEnv) : Bool :=
  match env.hasHardware with
  | .error _e => false
  | .ok false => false
  | .ok true =>
      match env.isEnrolled with
      | .error _e => false
      | .ok enrolled => enrolled

/-- `biometricService.getSupportedAuthenticationTypes`: rejections are
caught and become the empty list. -/
def getSupportedAuthenticationTypes (env : BiometricEnv) : List AuthType :=
  match env.supportedTypes with
  | .ok types => types
  | .error _e => []

/-- `biometricService.getBiometricTypeName`: facial first, then
fingerprint, then iris, else the generic label. -/
def getBiometricTypeName (env : BiometricEnv) : String :=
  let types := getSupportedAuthenticationTypes env
  if types.contains .facial then "Face ID"
  else if types.contains .fingerprint then "Touch ID"
  else if types.contains .iris then "Iris"
  else "Biometric"

/-- `biometricService.hasBiometricHardwareButNotEnrolled`: true only when
hardware is present and enrollment is absent; rejections become `false`. -/
def hasBiometricHardwareButNotEnrolled (env : BiometricEnv) : Bool :=
  match env.hasHardware with
  | .error _e => false
  | .ok false => false
  | .ok true =>
      match env.isEnrolled with
      | .error _e => false
      | .ok enrolled => !enrolled

/-- `biometricService.authenticate(promptMessage)`.  The second component
records whether `LocalAuthentication.authenticateAsync` (the platform
challenge) was invoked.  The availability pre-check short-circuits with a
fixed error; a rejected challenge is caught and normalised; the function
always resolves with an `AuthResult`. -/
def authenticate (env : BiometricEnv) (_promptMessage : String) :
    AuthResult × Bool :=
  if isBiometricAvailable env = false then
    ({ success := false
       error := some "Biometric authentication is not available on this device" },
     false)
  else
    match env.authenticateAsync with
    | .ok result =>
        if result.success then ({ success := true, error := none }, true)
        else
          ({ success := false
             error := some (jsOrElse result.error "Authentication failed") },
           true)
    | .error e => ({ success := false, error := some (exnMessage e) }, true)

end BiometricService

/-- Observable effects of one gate or facade invocation: how many
`biometricService` methods were called, how many times the wrapped
operation was invoked, and the titles of the alerts shown, in order. -/
structure Trace where
  serviceCalls : Nat
  opCalls : Nat
  alerts : List String
deriving Repr, DecidableEq

/-- Which button the user presses in the availability alert dialog:
`cancel` is the first button; `confirm` is the second one ("Continue" in
the no-hardware dialog, "Open Settings" in the other two). -/
inductive ButtonPress where
  | cancel
  | confirm
deriving Repr, DecidableEq

/-- The `useAuth` hook's collaborators and ambient state for one call of
`authenticateAndExecute`: the outcomes of the awaited `biometricService`
methods (each may reject at the gate's boundary), the user's button
choice, the outcome of opening the OS settings, and the hook's current
`isAvailable` state. -/
structure GateCollab where
  isAvailableR : Except JsExn Bool
  typeNameR : Except JsExn String
  authR : Except JsExn AuthResult
  typesR : Except JsExn (List AuthType)
  notEnrolledR : Except JsExn Bool
  choice : ButtonPress
  settingsR : Except JsExn Unit
  prevAvailable : Bool

/-- `BiometricStatus` computed by the hook's `getBiometricStatus`. -/
structure BiometricStatus where
  hasHardware : Bool
  isEnrolled : Bool
deriving Repr, DecidableEq

namespace UseAuth

/-- `getBiometricStatus`: `Promise.all` of the supported-types and
not-enrolled queries; any rejection is caught and yields
`{ hasHardware := false, isEnrolled := false }`. -/
def getBiometricStatus (c : GateCollab) : BiometricStatus :=
  match c.typesR, c.notEnrolledR with
  | .ok types, .ok notEnrolled =>
      { hasHardware := decide (0 < types.length), isEnrolled := !notEnrolled }
  | _, _ => { hasHardware := false, isEnrolled := false }

/-- `executeOperationWithoutAuth`: runs the operation, catching a
rejection into an `Error` alert and `undefined`. -/
def executeOperationWithoutAuth (opR : Except JsExn α) : Option α × List String :=
  match opR with
  | .ok v => (some v, [])
  | .error _e => (none, ["Error"])

/-- `handleBiometricNotAvailable`: query status, show the alert picked by
`generateAlertConfig`, and resolve according to the pressed button.  The
trace starts from `sc` service calls already made; the status query adds
two.  This function always resolves (its own catch, the dialog promise,
and the inner catches leave no rejection path). -/
def handleBiometricNotAvailable (c : GateCollab) (opR : Except JsExn α)
    (typeName : String) (sc : Nat) : Option α × Trace :=
  let status := getBiometricStatus c
  if status.hasHardware = false then
    match c.choice with
    | .cancel => (none, ⟨sc + 2, 0, ["Biometric Not Available"]⟩)
    | .confirm =>
        let (r, als) := executeOperationWithoutAuth opR
        (r, ⟨sc + 2, 1, "Biometric Not Available" :: als⟩)
  else
    let title :=
      if status.isEnrolled = false then typeName ++ " Not Set Up"
      else "Enable " ++ typeName
    match c.choice with
    | .cancel => (none, ⟨sc + 2, 0, [title]⟩)
    | .confirm =>
        match c.settingsR with
        | .ok _ => (none, ⟨sc + 2, 0, [title]⟩)
        | .error _e => (none, ⟨sc + 2, 0, [title, "Error"]⟩)

/-- The authentication branch of `authenticateAndExecute` once
availability is `true`: await `biometricService.authenticate`; on
`success` run the operation; otherwise show the `Authentication Failed`
alert and resolve `undefined`.  A rejection (of the challenge or of the
operation) escapes to the outer catch as `.error`. -/
def gateAuthPhase (c : GateCollab) (opR : Except JsExn α) (sc : Nat) :
    Except JsExn (Option α) × Trace :=
  match c.authR with
  | .error e => (.error e, ⟨sc + 1, 0, []⟩)
  | .ok authResult =>
      if authResult.success then
        match opR with
        | .ok v => (.ok (some v), ⟨sc + 1, 1, []⟩)
        | .error e => (.error e, ⟨sc + 1, 1, []⟩)
      else (.ok none, ⟨sc + 1, 0, ["Authentication Failed"]⟩)

/-- The try-block of `authenticateAndExecute`: availability check, hook
state sync (which fetches the type name when availability just turned
on), then either the not-available handler or the authentication branch.
An `.error` result is a rejection that reaches the outer catch. -/
def gateTry (c : GateCollab) (opR : Except JsExn α) :
    Except JsExn (Option α) × Trace :=
  match c.isAvailableR with
  | .error e => (.error e, ⟨1, 0, []⟩)
  | .ok true =>
      if c.prevAvailable then gateAuthPhase c opR 1
      else
        match c.typeNameR with
        | .error e => (.error e, ⟨2, 0, []⟩)
        | .ok _ => gateAuthPhase c opR 2
  | .ok false =>
      match c.typeNameR with
      | .error e => (.error e, ⟨2, 0, []⟩)
      | .ok typeName =>
          let (r, t) := handleBiometricNotAvailable c opR typeName 2
          (.ok r, t)

/-- `authenticateAndExecute(operation, promptMessage)`: the try-block
with the outer catch, which turns any rejection into the generic `Error`
alert and a resolved `undefined`.  The plain (non-`Except`) result type
is the caller's view: the call always resolves. -/
def authenticateAndExecute (c : GateCollab) (opR : Except JsExn α) :
    Option α × Trace :=
  match gateTry c opR with
  | (.ok r, t) => (r, t)
  | (.error _e, t) => (none, ⟨t.serviceCalls, t.opCalls, t.alerts ++ ["Error"]⟩)

/-- The gate's collaborators as actually provided by `biometricService`
over a platform environment: every service method has its own catch, so
each collaborator outcome is a resolved (`.ok`) value. -/
def serviceCollab (penv : BiometricEnv) (prompt : String)
    (choice : ButtonPress) (settingsR : Except JsExn Unit)
    (prevAvailable : Bool) : GateCollab :=
  { isAvailableR := .ok (BiometricService.isBiometricAvailable penv)
    typeNameR := .ok (BiometricService.getBiometricTypeName penv)
    authR := .ok (BiometricService.authenticate penv prompt).1
    typesR := .ok (BiometricService.getSupportedAuthenticationTypes penv)
    notEnrolledR := .ok (BiometricService.hasBiometricHardwareButNotEnrolled penv)
    choice := choice
    settingsR := settingsR
    prevAvailable := prevAvailable }

end UseAuth

namespace UseTodos

/-- The empty trace: no biometric-service call, no operation call, no
alert. -/
def noTrace : Trace := ⟨0, 0, []⟩

/-- `handleAddTodo(input)`: empty-after-trim titles are rejected with the
`Invalid Input` alert before any store or gate interaction; otherwise the
store's `addTodo` is wrapped in `authenticateAndExecute`.  The resulting
state is the operation's new state when the gate resolved with it, else
the unchanged input state. -/
def handleAddTodo (c : GateCollab) (fid : String) (now : Nat)
    (input : CreateTodoInput) (st : TodoState) : TodoState × Trace :=
  if input.title.trim = "" then
    (st, ⟨0, 0, ["Invalid Input"]⟩)
  else
    match UseAuth.authenticateAndExecute c (.ok (TodoProvider.addTodo fid now input st)) with
    | (some st2, t) => (st2, t)
    | (none, t) => (st, t)

/-- `handleUpdateTodo(id, updates)`: the store's `updateTodo` wrapped in
`authenticateAndExecute`, no precondition. -/
def handleUpdateTodo (c : GateCollab) (now : Nat) (id : String)
    (updates : UpdateTodoInput) (st : TodoState) : TodoState × Trace :=
  match UseAuth.authenticateAndExecute c
      (.ok (todoReducer now st (.updateTodo id updates))) with
  | (some st2, t) => (st2, t)
  | (none, t) => (st, t)

/-- `handleToggleTodo(id)`: the store transition invoked directly —
`await toggleTodo(id)` is the whole body; no biometric collaborator, no
gate, no alert. -/
def handleToggleTodo (_c : GateCollab) (now : Nat) (id : String)
    (st : TodoState) : TodoState × Trace :=
  (todoReducer now st (.toggleTodo id), noTrace)

end UseTodos

/-! ## Concrete sample inputs used by counterexamples and witnesses -/

/-- A sample stored todo. -/
def sampleTodo : Todo := ⟨"1", "t", none, false, 0, 0⟩

/-- A settled state holding `sampleTodo` with a pending error banner. -/
def sampleErrState : TodoState :=
  { todos := [sampleTodo], loading := false, error := some "boom" }

/-- A parse that rejects every input, modelling `JSON.parse` on malformed
data. -/
def badParse : String → Except JsExn (List Todo) :=
  fun _ => .error (.err "Unexpected token")

/-- Gate collaborators that all resolve, with authentication succeeding. -/
def sampleCollab : GateCollab :=
  { isAvailableR := .ok true
    typeNameR := .ok "Face ID"
    authR := .ok ⟨true, none⟩
    typesR := .ok [.facial]
    notEnrolledR := .ok false
    choice := .cancel
    settingsR := .ok ()
    prevAvailable := true }

/-- Gate collaborators whose availability check rejects. -/
def sampleRejectingCollab : GateCollab :=
  { sampleCollab with isAvailableR := .error .other }

/-- A platform with hardware, enrollment and a succeeding challenge. -/
def samplePlatformOk : BiometricEnv :=
  { hasHardware := .ok true
    isEnrolled := .ok true
    supportedTypes := .ok [.facial]
    authenticateAsync := .ok ⟨true, none⟩ }

/-- A platform with hardware and enrollment whose challenge is denied by
the user. -/
def samplePlatformDenied : BiometricEnv :=
  { hasHardware := .ok true
    isEnrolled := .ok true
    supportedTypes := .ok [.facial]
    authenticateAsync := .ok ⟨false, some "User cancelled"⟩ }

/-- A platform with no biometric hardware. -/
def samplePlatformNoHardware : BiometricEnv :=
  { hasHardware := .ok false
    isEnrolled := .ok false
    supportedTypes := .ok []
    authenticateAsync := .ok ⟨false, none⟩ }

/-! ## Helper lemmas -/

/-- Evaluating `String.trim` on the empty string (its defining recursions
are well-founded and need manual unfolding). -/
theorem trim_empty_eval : "".trim = "" := by
  unfold String.trim Substring.trim
  simp only [String.toSubstring]
  rw [Substring.takeWhileAux.eq_def]
  simp only [String.endPos, String.utf8ByteSize, String.utf8ByteSize.go,
    Substring.toString]
  norm_num
  rw [Substring.takeRightWhileAux.eq_def]
  norm_num [String.extract]

/-- Mapping a per-item rewrite guarded by `t.id == id` over a list with
no matching id leaves the list unchanged. -/
theorem map_if_id_eq_self (l : List Todo) (id : String) (f : Todo → Todo)
    (h : ∀ t ∈ l, (t.id == id) = false) :
    (l.map fun t => if t.id == id then f t else t) = l := by
  induction l with
  | nil => rfl
  | cons hd tl ih =>
    have h1 := h hd (List.mem_cons_self hd tl)
    simp only [List.map_cons, h1, Bool.false_eq_true, if_false,
      ih fun t ht => h t (List.mem_cons_of_mem hd ht)]

/-- Filtering with `t.id != id` keeps every element of a list with no
matching id. -/
theorem filter_id_ne_self (l : List Todo) (id : String)
    (h : ∀ t ∈ l, (t.id == id) = false) :
    (l.filter fun t => t.id != id) = l := by
  rw [List.filter_eq_self]
  intro t ht
  simp [bne, h t ht]

/-- Toggling the same id twice, elementwise over the list: the completed
flag returns to its original value and `updatedAt` ends at the second
timestamp. -/
theorem toggle_toggle_list (l : List Todo) (id : String) (t1 t2 : Nat) :
    ((l.map fun t =>
        if t.id == id then { t with completed := !t.completed, updatedAt := t1 }
        else t).map fun t =>
        if t.id == id then { t with completed := !t.completed, updatedAt := t2 }
        else t)
      = l.map fun t => if t.id == id then { t with updatedAt := t2 } else t := by
  induction l with
  | nil => rfl
  | cons hd tl ih =>
    simp only [List.map_cons, ih]
    by_cases h : (hd.id == id) = true
    · simp [h, Bool.not_not]
    · simp [h]

/-! ## Claims -/

/-- C9: every create prepends the constructed item, so creating A then B
then C yields [C, B, A] in front of the pre-existing items. -/
theorem create_prepends (st : TodoState) (a b c : CreateTodoInput)
    (ia ib ic : String) (na nb nc : Nat) :
    (TodoProvider.addTodo ia na a st).todos
        = TodoProvider.newTodo ia na a :: st.todos
    ∧ (TodoProvider.addTodo ic nc c
        (TodoProvider.addTodo ib nb b
          (TodoProvider.addTodo ia na a st))).todos
        = TodoProvider.newTodo ic nc c :: TodoProvider.newTodo ib nb b
            :: TodoProvider.newTodo ia na a :: st.todos :=
  ⟨rfl, rfl⟩

/-- C8 counterexample: toggling the same present id twice does not return
a state equal to the original, because `updatedAt` is refreshed (and the
claim asserts full state equality). -/
theorem toggle_twice_ne_original :
    todoReducer 2
      (todoReducer 1
        { todos := [⟨"1", "t", none, false, 0, 0⟩], loading := false, error := none }
        (.toggleTodo "1"))
      (.toggleTodo "1")
    ≠ { todos := [⟨"1", "t", none, false, 0, 0⟩], loading := false, error := none } := by
  decide

/-- C8 amended: toggling the same id twice flips `completed` back to its
initial value and refreshes `updatedAt` on both toggles, so the resulting
state equals the original except that the matched items carry the second
toggle's timestamp and `lastError` is cleared; `loading` is untouched. -/
theorem toggle_twice_amended (st : TodoState) (id : String) (t1 t2 : Nat) :
    (todoReducer t1 st (.toggleTodo id)).todos
      = (st.todos.map fun t =>
          if t.id == id then { t with completed := !t.completed, updatedAt := t1 }
          else t)
    ∧ (todoReducer t2 (todoReducer t1 st (.toggleTodo id)) (.toggleTodo id)).todos
      = (st.todos.map fun t => if t.id == id then { t with updatedAt := t2 } else t)
    ∧ (todoReducer t2 (todoReducer t1 st (.toggleTodo id)) (.toggleTodo id)).loading
      = st.loading
    ∧ (todoReducer t2 (todoReducer t1 st (.toggleTodo id)) (.toggleTodo id)).error
      = none := by
  refine ⟨rfl, ?_, rfl, rfl⟩
  simp only [todoReducer]
  exact toggle_toggle_list st.todos id t1 t2

/-- C2 counterexample: applying `update` with an id absent from the items
does change the state when `lastError` was set, because every mutation
branch of the reducer clears `error`. -/
theorem missing_id_not_full_noop :
    todoReducer 0
      { todos := [], loading := false, error := some "Failed to load todos" }
      (.updateTodo "x" ⟨none, none, none⟩)
    ≠ { todos := [], loading := false, error := some "Failed to load todos" } := by
  decide

/-- C2 amended: for an id absent from the items, `update`, `remove` and
`toggleCompleted` leave the items structurally unchanged and `loading`
untouched, but clear `lastError` to null (rather than leaving it
unchanged). -/
theorem missing_id_noop_amended (now : Nat) (st : TodoState) (id : String)
    (u : UpdateTodoInput) (h : ∀ t ∈ st.todos, (t.id == id) = false) :
    ((todoReducer now st (.updateTodo id u)).todos = st.todos
      ∧ (todoReducer now st (.updateTodo id u)).loading = st.loading
      ∧ (todoReducer now st (.updateTodo id u)).error = none)
    ∧ ((todoReducer now st (.deleteTodo id)).todos = st.todos
      ∧ (todoReducer now st (.deleteTodo id)).loading = st.loading
      ∧ (todoReducer now st (.deleteTodo id)).error = none)
    ∧ ((todoReducer now st (.toggleTodo id)).todos = st.todos
      ∧ (todoReducer now st (.toggleTodo id)).loading = st.loading
      ∧ (todoReducer now st (.toggleTodo id)).error = none) := by
  refine ⟨⟨?_, rfl, rfl⟩, ⟨?_, rfl, rfl⟩, ⟨?_, rfl, rfl⟩⟩
  · simpa only [todoReducer] using
      map_if_id_eq_self st.todos id (fun t => applyUpdates t u now) h
  · simpa only [todoReducer] using filter_id_ne_self st.todos id h
  · simpa only [todoReducer] using
      map_if_id_eq_self st.todos id
        (fun t => { t with completed := !t.completed, updatedAt := now }) h

/-- C2 witness: a concrete state with one item and an unknown id
satisfies the no-match hypothesis, and the amended no-op conclusion holds
there. -/
theorem missing_id_noop_amended_witness :
    (∀ t ∈ sampleErrState.todos, (t.id == "x") = false)
    ∧ ((todoReducer 7 sampleErrState
          (.updateTodo "x" ⟨none, none, none⟩)).todos = sampleErrState.todos
      ∧ (todoReducer 7 sampleErrState (.toggleTodo "x")).todos
          = sampleErrState.todos) :=
  ⟨by decide,
    (missing_id_noop_amended 7 sampleErrState "x" ⟨none, none, none⟩
      (by decide)).1.1,
    (missing_id_noop_amended 7 sampleErrState "x" ⟨none, none, none⟩
      (by decide)).2.2.1⟩

/-- C1 counterexample: when the stored string fails to parse, restore
yields the empty list with `loading = false` but `lastError` is *not*
set — the storage service swallows the failure and resolves with an
empty list, so the provider's error branch never runs. -/
theorem restore_parse_failure_clears_error :
    TodoProvider.loadTodos badParse (.value "not json") 0 initialTodoState
      = { todos := [], loading := false, error := none } := rfl

/-- C1 amended: on missing data, a rejected read, or a parse failure,
restore yields the empty items list with `loading = false` and
`lastError` cleared to null (not set to a message), because the storage
service catches read and parse failures and resolves with the empty
list; in particular `storageService.loadTodos` never rejects, so restore
never throws to its caller. -/
theorem restore_amended (parse : String → Except JsExn (List Todo))
    (read : StorageRead) (now : Nat) (st : TodoState)
    (h : read = .missing ∨ (∃ e, read = .readFailure e)
       ∨ (∃ s e, read = .value s ∧ parse s = .error e)) :
    TodoProvider.loadTodos parse read now st
      = { todos := [], loading := false, error := none }
    ∧ ∀ anyRead, ∃ l, StorageService.loadTodos parse anyRead = .ok l := by
  constructor
  · rcases h with rfl | ⟨e, rfl⟩ | ⟨s, e, rfl, hp⟩
    · rfl
    · rfl
    · simp [TodoProvider.loadTodos, StorageService.loadTodos, todoReducer, hp]
  · intro anyRead
    cases anyRead with
    | missing => exact ⟨[], rfl⟩
    | readFailure e => exact ⟨[], rfl⟩
    | value s =>
      cases hp : parse s with
      | ok l => exact ⟨l, by simp [StorageService.loadTodos, hp]⟩
      | error e => exact ⟨[], by simp [StorageService.loadTodos, hp]⟩

/-- C1 witness: a malformed stored string satisfies the parse-failure
hypothesis, and restore then yields the empty, settled, error-free
state. -/
theorem restore_amended_witness :
    ((StorageRead.value "not json") = .missing
       ∨ (∃ e, (StorageRead.value "not json") = .readFailure e)
       ∨ (∃ s e, (StorageRead.value "not json") = .value s
            ∧ badParse s = .error e))
    ∧ TodoProvider.loadTodos badParse (.value "not json") 3 sampleErrState
        = { todos := [], loading := false, error := none } :=
  ⟨Or.inr (Or.inr ⟨"not json", .err "Unexpected token", rfl, rfl⟩),
    (restore_amended badParse (.value "not json") 3 sampleErrState
      (Or.inr (Or.inr ⟨"not json", .err "Unexpected token", rfl, rfl⟩))).1⟩

/-- C6: the toggle intent invokes the store transition directly; its
trace records no biometric-service call, no gate-wrapped operation and
no alert — the biometric collaborator is never triggered. -/
theorem toggle_bypasses_gate (c : GateCollab) (now : Nat) (id : String)
    (st : TodoState) :
    UseTodos.handleToggleTodo c now id st
      = (todoReducer now st (.toggleTodo id), UseTodos.noTrace)
    ∧ (UseTodos.handleToggleTodo c now id st).2.serviceCalls = 0
    ∧ (UseTodos.handleToggleTodo c now id st).2.alerts = [] :=
  ⟨rfl, rfl, rfl⟩

/-- C7: a create input whose title is empty after trimming is rejected
with the `Invalid Input` alert before any store or gate interaction: the
state is returned unchanged and the trace shows zero biometric-service
calls and zero operation invocations. -/
theorem add_rejects_empty_title (c : GateCollab) (fid : String) (now : Nat)
    (input : CreateTodoInput) (st : TodoState) (h : input.title.trim = "") :
    UseTodos.handleAddTodo c fid now input st = (st, ⟨0, 0, ["Invalid Input"]⟩) := by
  simp [UseTodos.handleAddTodo, h]

/-- C7 witness: the empty title trims to empty, and the add intent then
leaves the concrete state unchanged with only the validation alert. -/
theorem add_rejects_empty_title_witness :
    ("".trim = "")
    ∧ UseTodos.handleAddTodo sampleCollab "9" 4 ⟨"", none⟩ sampleErrState
        = (sampleErrState, ⟨0, 0, ["Invalid Input"]⟩) :=
  ⟨trim_empty_eval, add_rejects_empty_title sampleCollab "9" 4 ⟨"", none⟩
    sampleErrState trim_empty_eval⟩

/-- C4: with hardware present, a credential enrolled, and the platform
challenge resolving successfully, `authenticateAndExecute` invokes the
wrapped operation exactly once and returns its result, with no alert. -/
theorem gate_success_executes_once {α : Type} (penv : BiometricEnv)
    (prompt : String) (v : α) (choice : ButtonPress)
    (settingsR : Except JsExn Unit) (prev : Bool)
    (hh : penv.hasHardware = .ok true) (he : penv.isEnrolled = .ok true)
    (ha : ∃ perr, penv.authenticateAsync = .ok ⟨true, perr⟩) :
    (UseAuth.authenticateAndExecute
        (UseAuth.serviceCollab penv prompt choice settingsR prev)
        (.ok v)).1 = some v
    ∧ (UseAuth.authenticateAndExecute
        (UseAuth.serviceCollab penv prompt choice settingsR prev)
        (.ok v)).2.opCalls = 1
    ∧ (UseAuth.authenticateAndExecute
        (UseAuth.serviceCollab penv prompt choice settingsR prev)
        (.ok v)).2.alerts = [] := by
  obtain ⟨perr, ha⟩ := ha
  have havail : BiometricService.isBiometricAvailable penv = true := by
    simp [BiometricService.isBiometricAvailable, hh, he]
  have hauth : (BiometricService.authenticate penv prompt).1
      = { success := true, error := none } := by
    simp [BiometricService.authenticate, havail, ha]
  cases prev <;>
    simp [UseAuth.authenticateAndExecute, UseAuth.gateTry,
      UseAuth.serviceCollab, UseAuth.gateAuthPhase, havail, hauth]

/-- C4 witness: a concrete succeeding platform runs a concrete operation
once and returns its value. -/
theorem gate_success_executes_once_witness :
    (samplePlatformOk.hasHardware = .ok true
      ∧ samplePlatformOk.isEnrolled = .ok true
      ∧ (∃ perr, samplePlatformOk.authenticateAsync = .ok ⟨true, perr⟩))
    ∧ (UseAuth.authenticateAndExecute
        (UseAuth.serviceCollab samplePlatformOk "p" .cancel (.ok ()) true)
        (.ok 42)).1 = some 42 :=
  ⟨⟨rfl, rfl, none, rfl⟩,
    (gate_success_executes_once samplePlatformOk "p" 42 .cancel (.ok ()) true
      rfl rfl ⟨none, rfl⟩).1⟩

/-- C5: with biometric authentication available but the challenge
resolving unsuccessfully, `authenticateAndExecute` never invokes the
wrapped operation, surfaces the `Authentication Failed` notice, and
returns undefined. -/
theorem gate_failure_skips_operation {α : Type} (penv : BiometricEnv)
    (prompt : String) (v : α) (choice : ButtonPress)
    (settingsR : Except JsExn Unit) (prev : Bool)
    (hh : penv.hasHardware = .ok true) (he : penv.isEnrolled = .ok true)
    (ha : ∃ perr, penv.authenticateAsync = .ok ⟨false, perr⟩) :
    (UseAuth.authenticateAndExecute
        (UseAuth.serviceCollab penv prompt choice settingsR prev)
        (.ok v)).1 = none
    ∧ (UseAuth.authenticateAndExecute
        (UseAuth.serviceCollab penv prompt choice settingsR prev)
        (.ok v)).2.opCalls = 0
    ∧ "Authentication Failed" ∈ (UseAuth.authenticateAndExecute
        (UseAuth.serviceCollab penv prompt choice settingsR prev)
        (.ok v)).2.alerts := by
  obtain ⟨perr, ha⟩ := ha
  have havail : BiometricService.isBiometricAvailable penv = true := by
    simp [BiometricService.isBiometricAvailable, hh, he]
  have hauth : (BiometricService.authenticate penv prompt).1
      = { success := false
          error := some (jsOrElse perr "Authentication failed") } := by
    simp [BiometricService.authenticate, havail, ha]
  cases prev <;>
    simp [UseAuth.authenticateAndExecute, UseAuth.gateTry,
      UseAuth.serviceCollab, UseAuth.gateAuthPhase, havail, hauth]

/-- C5 witness: a concrete denied challenge leaves the operation
uninvoked and resolves to undefined. -/
theorem gate_failure_skips_operation_witness :
    (samplePlatformDenied.hasHardware = .ok true
      ∧ samplePlatformDenied.isEnrolled = .ok true
      ∧ (∃ perr, samplePlatformDenied.authenticateAsync = .ok ⟨false, perr⟩))
    ∧ (UseAuth.authenticateAndExecute
        (UseAuth.serviceCollab samplePlatformDenied "p" .cancel (.ok ()) true)
        (.ok 42)).1 = none
    ∧ (UseAuth.authenticateAndExecute
        (UseAuth.serviceCollab samplePlatformDenied "p" .cancel (.ok ()) true)
        (.ok 42)).2.opCalls = 0 :=
  ⟨⟨rfl, rfl, some "User cancelled", rfl⟩,
    (gate_failure_skips_operation samplePlatformDenied "p" 42 .cancel (.ok ())
      true rfl rfl ⟨some "User cancelled", rfl⟩).1,
    (gate_failure_skips_operation samplePlatformDenied "p" 42 .cancel (.ok ())
      true rfl rfl ⟨some "User cancelled", rfl⟩).2.1⟩

/-- A rejected wrapped operation can never surface as a result: every
path of the gate that runs the operation catches its rejection (the
outer catch on the authenticated path, `executeOperationWithoutAuth` on
the continue-without-auth path), alerts `Error`, and resolves undefined;
paths that never run it resolve without it. -/
theorem gate_op_error_helper {α : Type} (c : GateCollab) (e : JsExn) :
    (UseAuth.authenticateAndExecute c (Except.error e : Except JsExn α)).1 = none
    ∧ ((UseAuth.authenticateAndExecute c (Except.error e : Except JsExn α)).2.opCalls = 0
       ∨ "Error" ∈ (UseAuth.authenticateAndExecute c
            (Except.error e : Except JsExn α)).2.alerts) := by
  unfold UseAuth.authenticateAndExecute UseAuth.gateTry
  cases hav : c.isAvailableR with
  | error e2 => simp
  | ok b =>
    cases b with
    | true =>
      cases hprev : c.prevAvailable with
      | true =>
        unfold UseAuth.gateAuthPhase
        cases hau : c.authR with
        | error e2 => simp
        | ok a => cases ha : a.success <;> simp [ha]
      | false =>
        cases htn : c.typeNameR with
        | error e2 => simp
        | ok tn =>
          unfold UseAuth.gateAuthPhase
          cases hau : c.authR with
          | error e2 => simp
          | ok a => cases ha : a.success <;> simp [ha]
    | false =>
      cases htn : c.typeNameR with
      | error e2 => simp
      | ok tn =>
        unfold UseAuth.handleBiometricNotAvailable
        cases hhw : (UseAuth.getBiometricStatus c).hasHardware <;>
          cases hch : c.choice <;>
            cases hst : c.settingsR <;>
              simp [hhw, hch, hst, UseAuth.executeOperationWithoutAuth]

/-- C3: a rejection of the availability check, of the challenge after
availability resolved true, or of the wrapped operation resolves
`authenticateAndExecute` to undefined; a rejecting availability check
and a rejecting challenge always surface the generic `Error` notice, and
a rejecting operation surfaces it whenever the operation was actually
invoked (so the exception actually fired); no rejection propagates (the
result type of the gate is a plain value, the outer catch absorbing
every rejection of the try-block). -/
theorem gate_never_propagates {α : Type} (c : GateCollab)
    (opR : Except JsExn α) :
    (((∃ e, c.isAvailableR = .error e)
        ∨ (c.isAvailableR = .ok true ∧ ∃ e, c.authR = .error e)
        ∨ (∃ e, opR = .error e)) →
      (UseAuth.authenticateAndExecute c opR).1 = none)
    ∧ ((∃ e, c.isAvailableR = .error e) →
        "Error" ∈ (UseAuth.authenticateAndExecute c opR).2.alerts)
    ∧ (c.isAvailableR = .ok true → (∃ e, c.authR = .error e) →
        "Error" ∈ (UseAuth.authenticateAndExecute c opR).2.alerts)
    ∧ ((∃ e, opR = .error e) →
        1 ≤ (UseAuth.authenticateAndExecute c opR).2.opCalls →
        "Error" ∈ (UseAuth.authenticateAndExecute c opR).2.alerts) := by
  refine ⟨?_, ?_, ?_, ?_⟩
  · intro h
    rcases h with ⟨e, he⟩ | ⟨hok, e, he⟩ | ⟨e, he⟩
    · simp [UseAuth.authenticateAndExecute, UseAuth.gateTry, he]
    · cases hprev : c.prevAvailable with
      | true =>
        cases hop : opR <;>
          simp [UseAuth.authenticateAndExecute, UseAuth.gateTry,
            UseAuth.gateAuthPhase, hok, he, hprev]
      | false =>
        cases htn : c.typeNameR <;>
          simp [UseAuth.authenticateAndExecute, UseAuth.gateTry,
            UseAuth.gateAuthPhase, hok, he, hprev, htn]
    · subst he
      exact (gate_op_error_helper c e).1
  · rintro ⟨e, he⟩
    simp [UseAuth.authenticateAndExecute, UseAuth.gateTry, he]
  · rintro hok ⟨e, he⟩
    cases hprev : c.prevAvailable with
    | true =>
      cases hop : opR <;>
        simp [UseAuth.authenticateAndExecute, UseAuth.gateTry,
          UseAuth.gateAuthPhase, hok, he, hprev]
    | false =>
      cases htn : c.typeNameR <;>
        simp [UseAuth.authenticateAndExecute, UseAuth.gateTry,
          UseAuth.gateAuthPhase, hok, he, hprev, htn]
  · rintro ⟨e, he⟩ hop
    subst he
    rcases (gate_op_error_helper c e).2 with h0 | h1
    · rw [h0] at hop
      exact absurd hop (by decide)
    · exact h1

/-- C3 witness: with a rejecting availability check the gate resolves to
undefined and the generic `Error` notice is surfaced. -/
theorem gate_never_propagates_witness :
    (∃ e, sampleRejectingCollab.isAvailableR = .error e)
    ∧ (UseAuth.authenticateAndExecute sampleRejectingCollab
        (Except.ok 42 : Except JsExn Nat)).1 = none
    ∧ "Error" ∈ (UseAuth.authenticateAndExecute sampleRejectingCollab
        (Except.ok 42 : Except JsExn Nat)).2.alerts :=
  ⟨⟨.other, rfl⟩,
    (gate_never_propagates sampleRejectingCollab
      (Except.ok 42 : Except JsExn Nat)).1 (Or.inl ⟨.other, rfl⟩),
    (gate_never_propagates sampleRejectingCollab
      (Except.ok 42 : Except JsExn Nat)).2.1 ⟨.other, rfl⟩⟩

/-- C10: `biometricService.authenticate` re-checks availability itself:
absent hardware, absent enrollment or a rejecting platform check each
make the availability pre-check false; whenever that pre-check is false
the call resolves exactly to `{success := false}` with the explanatory
message and the platform challenge is never invoked (unconditionally,
whatever outcome the challenge would have had); when available, a
rejecting challenge is caught and normalised to `{success := false}`
with the exception's message.  The plain (non-`Except`) result type of
`authenticate` is the caught totality: it never throws. -/
theorem biometric_authenticate_never_throws (penv : BiometricEnv)
    (prompt : String)
    (h : penv.hasHardware = .ok false ∨ (∃ e, penv.hasHardware = .error e)
       ∨ penv.isEnrolled = .ok false ∨ (∃ e, penv.isEnrolled = .error e)
       ∨ (∃ ex, penv.authenticateAsync = .error ex)) :
    (BiometricService.authenticate penv prompt).1.success = false
    ∧ (BiometricService.authenticate penv prompt).1.error.isSome = true
    ∧ ((penv.hasHardware = .ok false ∨ (∃ e, penv.hasHardware = .error e)
        ∨ penv.isEnrolled = .ok false ∨ (∃ e, penv.isEnrolled = .error e)) →
       BiometricService.isBiometricAvailable penv = false)
    ∧ (BiometricService.isBiometricAvailable penv = false →
        BiometricService.authenticate penv prompt
          = ({ success := false
               error := some "Biometric authentication is not available on this device" },
             false))
    ∧ (BiometricService.isBiometricAvailable penv = true →
        ∀ ex, penv.authenticateAsync = .error ex →
        BiometricService.authenticate penv prompt
          = ({ success := false, error := some (exnMessage ex) }, true)) := by
  have hunavail : (penv.hasHardware = .ok false
      ∨ (∃ e, penv.hasHardware = .error e)
      ∨ penv.isEnrolled = .ok false ∨ (∃ e, penv.isEnrolled = .error e)) →
      BiometricService.isBiometricAvailable penv = false := by
    rintro (h1 | ⟨e, h1⟩ | h1 | ⟨e, h1⟩)
    · simp [BiometricService.isBiometricAvailable, h1]
    · simp [BiometricService.isBiometricAvailable, h1]
    · cases hh : penv.hasHardware with
      | error e2 => simp [BiometricService.isBiometricAvailable, hh]
      | ok b =>
        cases b <;> simp [BiometricService.isBiometricAvailable, hh, h1]
    · cases hh : penv.hasHardware with
      | error e2 => simp [BiometricService.isBiometricAvailable, hh]
      | ok b =>
        cases b <;> simp [BiometricService.isBiometricAvailable, hh, h1]
  have hunavailEq : BiometricService.isBiometricAvailable penv = false →
      BiometricService.authenticate penv prompt
        = ({ success := false
             error := some "Biometric authentication is not available on this device" },
           false) := by
    intro hav
    simp [BiometricService.authenticate, hav]
  have havailEq : BiometricService.isBiometricAvailable penv = true →
      ∀ ex, penv.authenticateAsync = .error ex →
      BiometricService.authenticate penv prompt
        = ({ success := false, error := some (exnMessage ex) }, true) := by
    intro hav ex hex
    simp [BiometricService.authenticate, hav, hex]
  have hmain : (BiometricService.authenticate penv prompt).1.success = false
      ∧ (BiometricService.authenticate penv prompt).1.error.isSome = true := by
    by_cases hav : BiometricService.isBiometricAvailable penv = false
    · rw [hunavailEq hav]
      exact ⟨rfl, rfl⟩
    · have hav' : BiometricService.isBiometricAvailable penv = true := by
        cases hb : BiometricService.isBiometricAvailable penv
        · exact absurd hb hav
        · rfl
      rcases h with h1 | h1 | h1 | h1 | ⟨ex, hex⟩
      · exact absurd (hunavail (Or.inl h1)) hav
      · exact absurd (hunavail (Or.inr (Or.inl h1))) hav
      · exact absurd (hunavail (Or.inr (Or.inr (Or.inl h1)))) hav
      · exact absurd (hunavail (Or.inr (Or.inr (Or.inr h1)))) hav
      · rw [havailEq hav' ex hex]
        exact ⟨rfl, rfl⟩
  exact ⟨hmain.1, hmain.2, hunavail, hunavailEq, havailEq⟩

/-- C10 witness: a concrete platform without hardware satisfies the
guard; availability re-checks to false there, and `authenticate`
resolves unsuccessfully with the fixed message without invoking the
challenge. -/
theorem biometric_authenticate_never_throws_witness :
    (samplePlatformNoHardware.hasHardware = .ok false
       ∨ (∃ e, samplePlatformNoHardware.hasHardware = .error e)
       ∨ samplePlatformNoHardware.isEnrolled = .ok false
       ∨ (∃ e, samplePlatformNoHardware.isEnrolled = .error e)
       ∨ (∃ ex, samplePlatformNoHardware.authenticateAsync = .error ex))
    ∧ (BiometricService.authenticate samplePlatformNoHardware "p").1.success
        = false
    ∧ BiometricService.isBiometricAvailable samplePlatformNoHardware = false
    ∧ BiometricService.authenticate samplePlatformNoHardware "p"
        = ({ success := false
             error := some "Biometric authentication is not available on this device" },
           false) :=
  ⟨Or.inl rfl,
    (biometric_authenticate_never_throws samplePlatformNoHardware "p"
      (Or.inl rfl)).1,
    (biometric_authenticate_never_throws samplePlatformNoHardware "p"
      (Or.inl rfl)).2.2.1 (Or.inl rfl),
    (biometric_authenticate_never_throws samplePlatformNoHardware "p"
      (Or.inl rfl)).2.2.2.1
      ((biometric_authenticate_never_throws samplePlatformNoHardware "p"
        (Or.inl rfl)).2.2.1 (Or.inl rfl))⟩
